import Mathlib

/-!
Verification of `src/WonderNestApp/windows/flutter/generated_plugin_registrant.cc`.

The source file defines a single C++ function

  void RegisterPlugins(flutter::PluginRegistry* registry)

consisting of nine statements, each of the shape

  <Plugin>RegisterWithRegistrar(registry->GetRegistrarForPlugin("<Plugin>"));

We embed it shallowly.  The external world is a state of abstract type `S`;
registrar handles have abstract type `R`.  The registry method
`GetRegistrarForPlugin` is an arbitrary function `String → S → R × S`
(it may mutate the registry's internal state and its answers may depend on
that state), and each of the nine externally linked plugin registration
entry points is an arbitrary state transformer `R → S → S`.  `RegisterPlugins`
is the literal sequential composition of the nine statements; in addition to
the final state it returns the trace of external calls it made, each call
recorded with the registrar value it produced or consumed.  The C++ function
returns `void`, which the embedding reflects by producing no result beyond
the world state (the trace component is pure instrumentation of the calls).
-/

namespace WonderNest

/-- One external call made by `RegisterPlugins`: either a
`registry->GetRegistrarForPlugin(name)` request together with the registrar
value the registry returned, or a call to a plugin registration entry point
together with the registrar value passed to it. -/
inductive CallEvent (R : Type) where
  | getRegistrarForPlugin (pluginName : String) (result : R)
  | registerCall (entryPoint : String) (registrar : R)
deriving DecidableEq

/-- The call with its registrar value erased: which external function was
invoked, with which compile-time string. -/
inductive CallLabel where
  | getRegistrarForPlugin (pluginName : String)
  | registerCall (entryPoint : String)
deriving DecidableEq

/-- Erase the registrar value of an event, keeping the call's identity. -/
def CallEvent.label {R : Type} : CallEvent R → CallLabel
  | .getRegistrarForPlugin n _ => .getRegistrarForPlugin n
  | .registerCall e _ => .registerCall e

/-- `flutter::PluginRegistry*`: the one interface of the registry the source
uses, its `GetRegistrarForPlugin` method.  It takes the plugin name and the
current world state and yields the registrar handle plus the successor
state. -/
structure PluginRegistry (S R : Type) where
  GetRegistrarForPlugin : String → S → R × S

/-- The nine externally linked plugin registration entry points declared in
the headers included by the source file.  Each consumes a registrar handle
and may transform the world state. -/
structure PluginLibs (S R : Type) where
  AudioplayersWindowsPluginRegisterWithRegistrar : R → S → S
  ConnectivityPlusWindowsPluginRegisterWithRegistrar : R → S → S
  FlutterInappwebviewWindowsPluginCApiRegisterWithRegistrar : R → S → S
  FlutterSecureStorageWindowsPluginRegisterWithRegistrar : R → S → S
  LocalAuthPluginRegisterWithRegistrar : R → S → S
  PermissionHandlerWindowsPluginRegisterWithRegistrar : R → S → S
  RecordWindowsPluginCApiRegisterWithRegistrar : R → S → S
  SpeechToTextWindowsRegisterWithRegistrar : R → S → S
  UrlLauncherWindowsRegisterWithRegistrar : R → S → S

/-- One statement of the source,
`entry(registry->GetRegistrarForPlugin(pluginName))`:
request the registrar for `pluginName`, pass the returned handle unchanged to
`entry`, and record the two external calls. -/
def registerOne {S R : Type} (getRegistrar : String → S → R × S)
    (pluginName entryPoint : String) (entry : R → S → S) (s : S) :
    List (CallEvent R) × S :=
  ([CallEvent.getRegistrarForPlugin pluginName (getRegistrar pluginName s).1,
    CallEvent.registerCall entryPoint (getRegistrar pluginName s).1],
   entry (getRegistrar pluginName s).1 (getRegistrar pluginName s).2)

/-- `RegisterPlugins`, embedded statement for statement from the source file:
the nine registrations in source order, each threading the world state to the
next, together with the trace of the eighteen external calls. -/
def RegisterPlugins {S R : Type} (registry : PluginRegistry S R)
    (libs : PluginLibs S R) (s : S) : List (CallEvent R) × S :=
  let c1 := registerOne registry.GetRegistrarForPlugin
      "AudioplayersWindowsPlugin"
      "AudioplayersWindowsPluginRegisterWithRegistrar"
      libs.AudioplayersWindowsPluginRegisterWithRegistrar s
  let c2 := registerOne registry.GetRegistrarForPlugin
      "ConnectivityPlusWindowsPlugin"
      "ConnectivityPlusWindowsPluginRegisterWithRegistrar"
      libs.ConnectivityPlusWindowsPluginRegisterWithRegistrar c1.2
  let c3 := registerOne registry.GetRegistrarForPlugin
      "FlutterInappwebviewWindowsPluginCApi"
      "FlutterInappwebviewWindowsPluginCApiRegisterWithRegistrar"
      libs.FlutterInappwebviewWindowsPluginCApiRegisterWithRegistrar c2.2
  let c4 := registerOne registry.GetRegistrarForPlugin
      "FlutterSecureStorageWindowsPlugin"
      "FlutterSecureStorageWindowsPluginRegisterWithRegistrar"
      libs.FlutterSecureStorageWindowsPluginRegisterWithRegistrar c3.2
  let c5 := registerOne registry.GetRegistrarForPlugin
      "LocalAuthPlugin"
      "LocalAuthPluginRegisterWithRegistrar"
      libs.LocalAuthPluginRegisterWithRegistrar c4.2
  let c6 := registerOne registry.GetRegistrarForPlugin
      "PermissionHandlerWindowsPlugin"
      "PermissionHandlerWindowsPluginRegisterWithRegistrar"
      libs.PermissionHandlerWindowsPluginRegisterWithRegistrar c5.2
  let c7 := registerOne registry.GetRegistrarForPlugin
      "RecordWindowsPluginCApi"
      "RecordWindowsPluginCApiRegisterWithRegistrar"
      libs.RecordWindowsPluginCApiRegisterWithRegistrar c6.2
  let c8 := registerOne registry.GetRegistrarForPlugin
      "SpeechToTextWindows"
      "SpeechToTextWindowsRegisterWithRegistrar"
      libs.SpeechToTextWindowsRegisterWithRegistrar c7.2
  let c9 := registerOne registry.GetRegistrarForPlugin
      "UrlLauncherWindows"
      "UrlLauncherWindowsRegisterWithRegistrar"
      libs.UrlLauncherWindowsRegisterWithRegistrar c8.2
  (c1.1 ++ c2.1 ++ c3.1 ++ c4.1 ++ c5.1 ++ c6.1 ++ c7.1 ++ c8.1 ++ c9.1,
   c9.2)

/-- The nine (plugin name, registration entry point) pairs of the source
file, in source order. -/
def pluginPairs : List (String × String) :=
  [("AudioplayersWindowsPlugin",
    "AudioplayersWindowsPluginRegisterWithRegistrar"),
   ("ConnectivityPlusWindowsPlugin",
    "ConnectivityPlusWindowsPluginRegisterWithRegistrar"),
   ("FlutterInappwebviewWindowsPluginCApi",
    "FlutterInappwebviewWindowsPluginCApiRegisterWithRegistrar"),
   ("FlutterSecureStorageWindowsPlugin",
    "FlutterSecureStorageWindowsPluginRegisterWithRegistrar"),
   ("LocalAuthPlugin", "LocalAuthPluginRegisterWithRegistrar"),
   ("PermissionHandlerWindowsPlugin",
    "PermissionHandlerWindowsPluginRegisterWithRegistrar"),
   ("RecordWindowsPluginCApi",
    "RecordWindowsPluginCApiRegisterWithRegistrar"),
   ("SpeechToTextWindows", "SpeechToTextWindowsRegisterWithRegistrar"),
   ("UrlLauncherWindows", "UrlLauncherWindowsRegisterWithRegistrar")]

/-- The fixed sequence of the eighteen external calls, registrar values
erased: for each of the nine plugins in source order, the registrar request
followed by the registration call. -/
def expectedCallLabels : List CallLabel :=
  pluginPairs.flatMap fun pe =>
    [CallLabel.getRegistrarForPlugin pe.1, CallLabel.registerCall pe.2]

/-- The plugin names passed to `GetRegistrarForPlugin` along a trace, in
order. -/
def traceNames {R : Type} (tr : List (CallEvent R)) : List String :=
  tr.filterMap fun e =>
    match e with
    | CallEvent.getRegistrarForPlugin n _ => some n
    | CallEvent.registerCall _ _ => none

/-- The registration entry points invoked along a trace, in order. -/
def traceEntries {R : Type} (tr : List (CallEvent R)) : List String :=
  tr.filterMap fun e =>
    match e with
    | CallEvent.getRegistrarForPlugin _ _ => none
    | CallEvent.registerCall ep _ => some ep

/-- The (plugin name, entry point) pairs formed by successive
request/registration couples of a trace. -/
def tracePairs {R : Type} : List (CallEvent R) → List (String × String)
  | CallEvent.getRegistrarForPlugin n _ :: CallEvent.registerCall e _ :: rest =>
      (n, e) :: tracePairs rest
  | _ => []

/-- Every registrar value appearing anywhere in a trace, whether returned by
a registrar request or passed to a registration call. -/
def registrarValues {R : Type} (tr : List (CallEvent R)) : List R :=
  tr.map fun e =>
    match e with
    | CallEvent.getRegistrarForPlugin _ r => r
    | CallEvent.registerCall _ r => r

/-- A trace is well paired when it consists of consecutive couples
(registrar request, registration call) in which the registration call's
argument is exactly the registrar value the request returned. -/
def wellPaired {R : Type} : List (CallEvent R) → Prop
  | [] => True
  | CallEvent.getRegistrarForPlugin _ r :: CallEvent.registerCall _ r' :: rest =>
      r = r' ∧ wellPaired rest
  | _ => False

/-- `pendingOk p tr`: starting with `p` registrar handles obtained but not
yet forwarded, every registrar request in `tr` happens with no handle
pending and every registration call happens with exactly one handle pending
(which it consumes).  `pendingOk 0 tr` therefore says the code never holds
more than one unconsumed registrar and forwards each one before the next
request. -/
def pendingOk {R : Type} : Nat → List (CallEvent R) → Prop
  | _, [] => True
  | p, CallEvent.getRegistrarForPlugin _ _ :: rest => p = 0 ∧ pendingOk 1 rest
  | p, CallEvent.registerCall _ _ :: rest => p = 1 ∧ pendingOk 0 rest

/-- Whether an event is a `GetRegistrarForPlugin` request. -/
def CallEvent.isGet {R : Type} : CallEvent R → Bool
  | .getRegistrarForPlugin _ _ => true
  | .registerCall _ _ => false

/-- Whether an event is a plugin registration call. -/
def CallEvent.isRegisterCall {R : Type} : CallEvent R → Bool
  | .getRegistrarForPlugin _ _ => false
  | .registerCall _ _ => true

/-- Modelled from the spec: the spec enumerates the plugins as audio
playback, connectivity detection, web view embedding, secure storage,
biometric authentication, permission handling, audio recording,
speech-to-text, URL launching; this list names the plugin realizing each
capability, in that order. -/
def specEnumerationOrder : List String :=
  ["AudioplayersWindowsPlugin",
   "ConnectivityPlusWindowsPlugin",
   "FlutterInappwebviewWindowsPluginCApi",
   "FlutterSecureStorageWindowsPlugin",
   "LocalAuthPlugin",
   "PermissionHandlerWindowsPlugin",
   "RecordWindowsPluginCApi",
   "SpeechToTextWindows",
   "UrlLauncherWindows"]

/-- A registry over nullable registrar handles (`none` is the null pointer)
that answers every request with the null handle, leaving the state alone. -/
def nullRegistry : PluginRegistry Unit (Option Unit) :=
  ⟨fun _ s => (none, s)⟩

/-- A registry over nullable registrar handles that answers every request
with a non-null handle. -/
def someRegistry : PluginRegistry Unit (Option Unit) :=
  ⟨fun _ s => (some (), s)⟩

/-- Plugin entry points over nullable registrar handles that do nothing. -/
def nullLibs : PluginLibs Unit (Option Unit) :=
  ⟨fun _ s => s, fun _ s => s, fun _ s => s, fun _ s => s, fun _ s => s,
   fun _ s => s, fun _ s => s, fun _ s => s, fun _ s => s⟩

/-- A concrete registry over the state `(plugin table, rest of the world)`,
modelled as `Nat × Nat`; it bumps the plugin-table component and leaves the
rest of the world alone. -/
def tableRegistry : PluginRegistry (Nat × Nat) Unit :=
  ⟨fun _ s => ((), (s.1 + 1, s.2))⟩

/-- Concrete plugin entry points over the state
`(plugin table, rest of the world)`; each bumps the plugin-table component
and leaves the rest of the world alone. -/
def tableLibs : PluginLibs (Nat × Nat) Unit :=
  ⟨fun _ s => (s.1 + 1, s.2), fun _ s => (s.1 + 1, s.2),
   fun _ s => (s.1 + 1, s.2), fun _ s => (s.1 + 1, s.2),
   fun _ s => (s.1 + 1, s.2), fun _ s => (s.1 + 1, s.2),
   fun _ s => (s.1 + 1, s.2), fun _ s => (s.1 + 1, s.2),
   fun _ s => (s.1 + 1, s.2)⟩

-- Normal-form helper lemmas (shared by the claim theorems).

/-- The erased call sequence of `RegisterPlugins` is the fixed eighteen-call
sequence, for every registry, plugin implementation and starting state. -/
theorem trace_labels {S R : Type} (registry : PluginRegistry S R)
    (libs : PluginLibs S R) (s : S) :
    (RegisterPlugins registry libs s).1.map CallEvent.label =
      expectedCallLabels := by
  simp [RegisterPlugins, registerOne, expectedCallLabels, pluginPairs,
    CallEvent.label]

/-- Every trace of `RegisterPlugins` is well paired: each registration call
receives exactly the registrar value returned by the immediately preceding
registrar request. -/
theorem trace_wellPaired {S R : Type} (registry : PluginRegistry S R)
    (libs : PluginLibs S R) (s : S) :
    wellPaired (RegisterPlugins registry libs s).1 := by
  simp [RegisterPlugins, registerOne, wellPaired]

/-- The plugin names requested by `RegisterPlugins`, in order, are the first
components of the nine source pairs. -/
theorem trace_names_eq {S R : Type} (registry : PluginRegistry S R)
    (libs : PluginLibs S R) (s : S) :
    traceNames (RegisterPlugins registry libs s).1 =
      pluginPairs.map Prod.fst := by
  simp [RegisterPlugins, registerOne, traceNames, pluginPairs]

/-- The registration entry points invoked by `RegisterPlugins`, in order,
are the second components of the nine source pairs. -/
theorem trace_entries_eq {S R : Type} (registry : PluginRegistry S R)
    (libs : PluginLibs S R) (s : S) :
    traceEntries (RegisterPlugins registry libs s).1 =
      pluginPairs.map Prod.snd := by
  simp [RegisterPlugins, registerOne, traceEntries, pluginPairs]

/-- The request/registration couples of every `RegisterPlugins` trace are
the nine source pairs, in order. -/
theorem trace_pairs_eq {S R : Type} (registry : PluginRegistry S R)
    (libs : PluginLibs S R) (s : S) :
    tracePairs (RegisterPlugins registry libs s).1 = pluginPairs := by
  simp [RegisterPlugins, registerOne, tracePairs, pluginPairs]

/-- Along every `RegisterPlugins` trace, requests happen with no registrar
pending and registration calls with exactly one. -/
theorem trace_pendingOk {S R : Type} (registry : PluginRegistry S R)
    (libs : PluginLibs S R) (s : S) :
    pendingOk 0 (RegisterPlugins registry libs s).1 := by
  simp [RegisterPlugins, registerOne, pendingOk]

/-- Every registrar value in a `RegisterPlugins` trace was returned by some
`GetRegistrarForPlugin` request: any property that holds of every answer the
registry can give holds of every registrar value in the trace. -/
theorem trace_registrarValues {S R : Type} (P : R → Prop)
    (registry : PluginRegistry S R) (libs : PluginLibs S R) (s : S)
    (h : ∀ name st, P (registry.GetRegistrarForPlugin name st).1) :
    ∀ r ∈ registrarValues (RegisterPlugins registry libs s).1, P r := by
  simp only [RegisterPlugins, registerOne, registrarValues, List.map_append,
    List.map_cons, List.map_nil, List.mem_append, List.mem_cons,
    List.not_mem_nil, or_false]
  intro r hr
  casesm* _ ∨ _ <;> (subst ‹r = _›; exact h _ _)

-- Claim theorems.

/-- C1, counterexample.  The claim asserts that for every registry each of
the nine plugins receives a non-null registrar.  The code forwards whatever
`GetRegistrarForPlugin` returns without checking it: with a registry that
answers every request with the null handle (`none`), every registration call
receives a null registrar. -/
theorem C1_null_registrar_counterexample :
    ¬ (∀ r ∈ registrarValues (RegisterPlugins nullRegistry nullLibs ()).1,
        r.isSome = true) := by
  decide

/-- C1, amended.  For every registry over nullable registrar handles —
including one that returns the null handle — each of the nine plugins
receives exactly one registration call, the request/registration couples
are exactly the nine source pairs (so the registrar passed to each plugin
is the one obtained from `GetRegistrarForPlugin` under that plugin's own
name, unchanged); only the final conjunct, that the registrar passed is
non-null, is conditional on the registry returning only non-null
handles. -/
theorem C1_each_plugin_registered_once {S U : Type}
    (registry : PluginRegistry S (Option U)) (libs : PluginLibs S (Option U))
    (s : S) :
    tracePairs (RegisterPlugins registry libs s).1 = pluginPairs ∧
    wellPaired (RegisterPlugins registry libs s).1 ∧
    (∀ pe ∈ pluginPairs,
      (traceEntries (RegisterPlugins registry libs s).1).count pe.2 = 1) ∧
    ((∀ name st,
        (registry.GetRegistrarForPlugin name st).1.isSome = true) →
      ∀ r ∈ registrarValues (RegisterPlugins registry libs s).1,
        r.isSome = true) := by
  refine ⟨trace_pairs_eq registry libs s, trace_wellPaired registry libs s,
    ?_, fun hnn =>
      trace_registrarValues (fun r => r.isSome = true) registry libs s hnn⟩
  rw [trace_entries_eq]; decide

/-- C1, witness: the amended theorem instantiated at the registry that
always returns a non-null handle, the non-nullness premise discharged
there. -/
theorem C1_each_plugin_registered_once_witness :
    tracePairs (RegisterPlugins someRegistry nullLibs ()).1 = pluginPairs ∧
    wellPaired (RegisterPlugins someRegistry nullLibs ()).1 ∧
    (∀ pe ∈ pluginPairs,
      (traceEntries (RegisterPlugins someRegistry nullLibs ()).1).count pe.2
        = 1) ∧
    ∀ r ∈ registrarValues (RegisterPlugins someRegistry nullLibs ()).1,
      r.isSome = true :=
  ⟨(C1_each_plugin_registered_once someRegistry nullLibs ()).1,
   (C1_each_plugin_registered_once someRegistry nullLibs ()).2.1,
   (C1_each_plugin_registered_once someRegistry nullLibs ()).2.2.1,
   (C1_each_plugin_registered_once someRegistry nullLibs ()).2.2.2
     (fun _ _ => rfl)⟩

/-- C2.  `RegisterPlugins` is straight-line code: any two runs, over any two
registries, plugin implementations, state types and registrar types, make
the identical fixed sequence of external calls (same functions, same plugin
name strings, same order), so the names queried cannot depend on anything
the registry returns; moreover no value obtained from one call is retained
for a later call: each registration call consumes exactly the registrar
returned by the request immediately before it. -/
theorem C2_fixed_call_sequence {S R S2 R2 : Type}
    (registry : PluginRegistry S R) (libs : PluginLibs S R) (s : S)
    (registry2 : PluginRegistry S2 R2) (libs2 : PluginLibs S2 R2) (s2 : S2) :
    (RegisterPlugins registry libs s).1.map CallEvent.label =
      (RegisterPlugins registry2 libs2 s2).1.map CallEvent.label ∧
    wellPaired (RegisterPlugins registry libs s).1 :=
  ⟨(trace_labels registry libs s).trans
      (trace_labels registry2 libs2 s2).symm,
   trace_wellPaired registry libs s⟩

/-- C3.  The plugin names requested (hence the plugins registered), in
order, are exactly the spec's enumeration order: audio playback,
connectivity detection, web view embedding, secure storage, biometric
authentication, permission handling, audio recording, speech-to-text, URL
launching. -/
theorem C3_spec_enumeration_order {S R : Type}
    (registry : PluginRegistry S R) (libs : PluginLibs S R) (s : S) :
    traceNames (RegisterPlugins registry libs s).1 = specEnumerationOrder := by
  rw [trace_names_eq]; decide

/-- C4.  `RegisterPlugins` returns nothing (the embedding yields only the
successor world state, plus the instrumentation trace) and its only effect
is through the registry argument: splitting the world state into the
registry's plugin table `T` and everything else `W`, if every external call
it forwards to (the registry's `GetRegistrarForPlugin` and the nine plugin
entry points) leaves the `W` component unchanged, then so does
`RegisterPlugins` — the shim itself touches nothing beyond those calls. -/
theorem C4_frame_registry_only {T W R : Type}
    (registry : PluginRegistry (T × W) R) (libs : PluginLibs (T × W) R)
    (hreg : ∀ name s, ((registry.GetRegistrarForPlugin name s).2).2 = s.2)
    (h1 : ∀ r s,
      (libs.AudioplayersWindowsPluginRegisterWithRegistrar r s).2 = s.2)
    (h2 : ∀ r s,
      (libs.ConnectivityPlusWindowsPluginRegisterWithRegistrar r s).2 = s.2)
    (h3 : ∀ r s,
      (libs.FlutterInappwebviewWindowsPluginCApiRegisterWithRegistrar r s).2
        = s.2)
    (h4 : ∀ r s,
      (libs.FlutterSecureStorageWindowsPluginRegisterWithRegistrar r s).2
        = s.2)
    (h5 : ∀ r s, (libs.LocalAuthPluginRegisterWithRegistrar r s).2 = s.2)
    (h6 : ∀ r s,
      (libs.PermissionHandlerWindowsPluginRegisterWithRegistrar r s).2 = s.2)
    (h7 : ∀ r s,
      (libs.RecordWindowsPluginCApiRegisterWithRegistrar r s).2 = s.2)
    (h8 : ∀ r s, (libs.SpeechToTextWindowsRegisterWithRegistrar r s).2 = s.2)
    (h9 : ∀ r s, (libs.UrlLauncherWindowsRegisterWithRegistrar r s).2 = s.2)
    (s : T × W) :
    ((RegisterPlugins registry libs s).2).2 = s.2 := by
  simp [RegisterPlugins, registerOne, hreg, h1, h2, h3, h4, h5, h6, h7, h8,
    h9]

/-- C4, witness: the frame theorem instantiated at concrete registry and
plugin implementations that only bump the plugin-table component, started
in the state `(0, 7)`; the non-table component 7 survives. -/
theorem C4_frame_registry_only_witness :
    ((RegisterPlugins tableRegistry tableLibs ((0, 7) : Nat × Nat)).2).2
      = 7 :=
  C4_frame_registry_only tableRegistry tableLibs (fun _ _ => rfl)
    (fun _ _ => rfl) (fun _ _ => rfl) (fun _ _ => rfl) (fun _ _ => rfl)
    (fun _ _ => rfl) (fun _ _ => rfl) (fun _ _ => rfl) (fun _ _ => rfl)
    (fun _ _ => rfl) ((0, 7))

/-- C5.  For every registry there are registrar values `r1 … r9` (the ones
`GetRegistrarForPlugin` returned) such that the trace is exactly the
eighteen calls below: each obtained registrar is passed, unmodified and
with no intervening operation, to exactly one registration entry point,
namely the immediately following call. -/
theorem C5_registrar_forwarded_verbatim {S R : Type}
    (registry : PluginRegistry S R) (libs : PluginLibs S R) (s : S) :
    ∃ r1 r2 r3 r4 r5 r6 r7 r8 r9 : R,
      (RegisterPlugins registry libs s).1 =
        [CallEvent.getRegistrarForPlugin "AudioplayersWindowsPlugin" r1,
         CallEvent.registerCall
           "AudioplayersWindowsPluginRegisterWithRegistrar" r1,
         CallEvent.getRegistrarForPlugin "ConnectivityPlusWindowsPlugin" r2,
         CallEvent.registerCall
           "ConnectivityPlusWindowsPluginRegisterWithRegistrar" r2,
         CallEvent.getRegistrarForPlugin
           "FlutterInappwebviewWindowsPluginCApi" r3,
         CallEvent.registerCall
           "FlutterInappwebviewWindowsPluginCApiRegisterWithRegistrar" r3,
         CallEvent.getRegistrarForPlugin
           "FlutterSecureStorageWindowsPlugin" r4,
         CallEvent.registerCall
           "FlutterSecureStorageWindowsPluginRegisterWithRegistrar" r4,
         CallEvent.getRegistrarForPlugin "LocalAuthPlugin" r5,
         CallEvent.registerCall "LocalAuthPluginRegisterWithRegistrar" r5,
         CallEvent.getRegistrarForPlugin
           "PermissionHandlerWindowsPlugin" r6,
         CallEvent.registerCall
           "PermissionHandlerWindowsPluginRegisterWithRegistrar" r6,
         CallEvent.getRegistrarForPlugin "RecordWindowsPluginCApi" r7,
         CallEvent.registerCall
           "RecordWindowsPluginCApiRegisterWithRegistrar" r7,
         CallEvent.getRegistrarForPlugin "SpeechToTextWindows" r8,
         CallEvent.registerCall
           "SpeechToTextWindowsRegisterWithRegistrar" r8,
         CallEvent.getRegistrarForPlugin "UrlLauncherWindows" r9,
         CallEvent.registerCall
           "UrlLauncherWindowsRegisterWithRegistrar" r9] := by
  exact ⟨_, _, _, _, _, _, _, _, _, rfl⟩

/-- C6.  `RegisterPlugins` has no runtime failure path: it is a total
function of the registry (the embedding needs no `Option` or `Except`), and
for every registry, plugin implementations and starting state it performs
the complete fixed eighteen-call sequence — it never stops early, never
branches on what a call returned, and contains no call that detects,
reports or recovers from an error. -/
theorem C6_no_failure_path {S R : Type} (registry : PluginRegistry S R)
    (libs : PluginLibs S R) (s : S) :
    (RegisterPlugins registry libs s).1.map CallEvent.label =
      expectedCallLabels :=
  trace_labels registry libs s

/-- C7.  The request/registration couples of every trace are exactly the
nine source pairs, and in each pair the string handed to
`GetRegistrarForPlugin` is the plugin class name of the entry point that is
then called: the entry point's name is that string followed by
`RegisterWithRegistrar`. -/
theorem C7_name_matches_entry_point {S R : Type}
    (registry : PluginRegistry S R) (libs : PluginLibs S R) (s : S) :
    tracePairs (RegisterPlugins registry libs s).1 = pluginPairs ∧
    pluginPairs.all
      (fun pe => pe.2 == pe.1 ++ "RegisterWithRegistrar") = true :=
  ⟨trace_pairs_eq registry libs s, by decide⟩

/-- C8.  The nine plugin names passed to `GetRegistrarForPlugin` in one call
of `RegisterPlugins` are pairwise distinct: no name is requested (hence no
plugin registered) twice. -/
theorem C8_plugin_names_distinct {S R : Type}
    (registry : PluginRegistry S R) (libs : PluginLibs S R) (s : S) :
    (traceNames (RegisterPlugins registry libs s).1).Nodup := by
  rw [trace_names_eq]; decide

/-- C9.  `RegisterPlugins` terminates on every input — it is a total
function with no recursion — and completes after exactly eighteen external
calls: nine registrar requests and nine registration calls. -/
theorem C9_terminates_eighteen_calls {S R : Type}
    (registry : PluginRegistry S R) (libs : PluginLibs S R) (s : S) :
    (RegisterPlugins registry libs s).1.length = 18 ∧
    ((RegisterPlugins registry libs s).1.filter CallEvent.isGet).length
      = 9 ∧
    ((RegisterPlugins registry libs s).1.filter
      CallEvent.isRegisterCall).length = 9 := by
  refine ⟨?_, ?_, ?_⟩ <;>
    simp [RegisterPlugins, registerOne, CallEvent.isGet,
      CallEvent.isRegisterCall]

/-- C10.  `RegisterPlugins` never holds more than one unconsumed registrar:
along its trace every registrar request happens with no handle pending and
every registration call with exactly one, so each registrar obtained is
forwarded before the next `GetRegistrarForPlugin` request — and the handle
forwarded is exactly the one the preceding request returned. -/
theorem C10_at_most_one_pending_registrar {S R : Type}
    (registry : PluginRegistry S R) (libs : PluginLibs S R) (s : S) :
    pendingOk 0 (RegisterPlugins registry libs s).1 ∧
    wellPaired (RegisterPlugins registry libs s).1 :=
  ⟨trace_pendingOk registry libs s, trace_wellPaired registry libs s⟩

end WonderNest
